import Mathlib

/-!
Verification of the `robot_v2` block-picking robot.

This file is a shallow embedding of the two core modules of the repository:

* `vision.py` — color-based perception (`VisionSystem`): contour filtering,
  area-sorted detection lists, alignment error and distance estimation.
* `main.py` — the finite-state controller (`BlockPickingRobot`): per-state
  tick logic, timeouts, search retry counters, and the key-driven
  continue/reset transitions of the main loop.

OpenCV calls (`cv2.findContours`, `cv2.contourArea`, `cv2.boundingRect`,
`cv2.moments`) are external library code; a contour is therefore abstracted to
the measurements the repository reads from it, and a camera frame to the
per-color contour lists the segmentation pipeline produces from it.  Python
floats are modelled as rationals, pixel coordinates as integers.
-/

namespace RobotV2

/-- Truncation toward zero, the behaviour of Python's `int()` applied to a
nonnegative-or-negative rational value (`int(M["m10"]/M["m00"])`). -/
def pyInt (q : ℚ) : ℤ := if 0 ≤ q then ⌊q⌋ else ⌈q⌉

/-- One OpenCV contour, abstracted to the measurements `vision.py` reads from
it: `cv2.contourArea` (`area`), `cv2.boundingRect` (`x, y, w, h`) and the
spatial moments `m00, m10, m01` of `cv2.moments`. -/
structure Contour where
  area : ℚ
  x : ℤ
  y : ℤ
  w : ℕ
  h : ℕ
  m00 : ℚ
  m10 : ℚ
  m01 : ℚ
  deriving DecidableEq, Repr

/-- The `DetectedObject` dataclass of `vision.py`. -/
structure DetectedObject where
  color : String
  center_x : ℤ
  center_y : ℤ
  area : ℚ
  bbox : ℤ × ℤ × ℕ × ℕ
  aspect_ratio : ℚ
  deriving DecidableEq, Repr

/-- Width/height aspect ratio of a bounding box with the division-by-zero
guard of `vision.py` line 188: `aspect_ratio = w / h if h > 0 else 0`. -/
def aspectRatioOf (c : Contour) : ℚ :=
  if 0 < c.h then (c.w : ℚ) / (c.h : ℚ) else 0

/-- The per-contour loop body of `VisionSystem.extract_objects_from_mask`
(vision.py lines 177–212): area filter, aspect-ratio filter, centroid from
the moments with bounding-box-center fallback when `m00 == 0`.  Returns
`none` when one of the two filters rejects the contour. -/
def processContour (color : String) (min_area max_area : ℚ)
    (aspect_ratio_range : ℚ × ℚ) (c : Contour) : Option DetectedObject :=
  if c.area < min_area ∨ c.area > max_area then none
  else
    let aspect_ratio := aspectRatioOf c
    if aspect_ratio < aspect_ratio_range.1 ∨ aspect_ratio > aspect_ratio_range.2 then
      none
    else
      let cx : ℤ := if c.m00 ≠ 0 then pyInt (c.m10 / c.m00) else c.x + (c.w / 2 : ℕ)
      let cy : ℤ := if c.m00 ≠ 0 then pyInt (c.m01 / c.m00) else c.y + (c.h / 2 : ℕ)
      some { color := color, center_x := cx, center_y := cy, area := c.area,
             bbox := (c.x, c.y, c.w, c.h), aspect_ratio := aspect_ratio }

/-- The final `objects.sort(key=lambda o: o.area, reverse=True)`: a stable
sort by non-increasing area. -/
def sortByAreaDesc (objects : List DetectedObject) : List DetectedObject :=
  List.insertionSort (fun a b => b.area ≤ a.area) objects

/-- `VisionSystem.extract_objects_from_mask`, with `cv2.findContours` of the
mask abstracted to the contour list it returns. -/
def extract_objects_from_mask (contours : List Contour) (color : String)
    (min_area max_area : ℚ) (aspect_ratio_range : ℚ × ℚ) : List DetectedObject :=
  sortByAreaDesc
    (contours.filterMap (processContour color min_area max_area aspect_ratio_range))

/-- `self.block_min_area = 300`. -/
def block_min_area : ℚ := 300

/-- `self.block_max_area = 5000`. -/
def block_max_area : ℚ := 5000

/-- `self.sheet_min_area = 8000`. -/
def sheet_min_area : ℚ := 8000

/-- `self.sheet_max_area = 100000`. -/
def sheet_max_area : ℚ := 100000

/-- `self.block_aspect_ratio_range = (0.5, 2.0)`. -/
def block_aspect_ratio_range : ℚ × ℚ := (1/2, 2)

/-- `self.sheet_aspect_ratio_range = (0.3, 0.9)`. -/
def sheet_aspect_ratio_range : ℚ × ℚ := (3/10, 9/10)

/-- `self.frame_center_x = resolution[0] // 2` with the default `(640, 480)`
resolution. -/
def frame_center_x : ℤ := 320

/-- A camera frame, abstracted to what the detection pipeline extracts from
it: for each color name, the external contours `cv2.findContours` returns on
the mask `create_color_mask` builds for that color (both OpenCV calls are
outside the embedding). -/
structure Frame where
  contoursOf : String → List Contour

/-- `VisionSystem.detect_small_blocks`: per-color segment + extract with the
block class spec, concatenated in color order, re-sorted by descending area. -/
def detect_small_blocks (frame : Frame)
    (colors : List String := ["red", "yellow", "blue"]) : List DetectedObject :=
  sortByAreaDesc
    ((colors.map fun color =>
        extract_objects_from_mask (frame.contoursOf color) color
          block_min_area block_max_area block_aspect_ratio_range)).flatten

/-- `VisionSystem.detect_sheets`: same pipeline with the sheet class spec. -/
def detect_sheets (frame : Frame)
    (colors : List String := ["black", "red", "yellow", "blue"]) : List DetectedObject :=
  sortByAreaDesc
    ((colors.map fun color =>
        extract_objects_from_mask (frame.contoursOf color) color
          sheet_min_area sheet_max_area sheet_aspect_ratio_range)).flatten

/-- `center_threshold = 30` inside `calculate_alignment_error`. -/
def center_threshold : ℤ := 30

/-- `VisionSystem.calculate_alignment_error`, with the instance field
`self.frame_center_x` made an explicit argument. -/
def calculate_alignment_error (obj : DetectedObject) (fcx : ℤ) : ℤ × String :=
  let error := obj.center_x - fcx
  if |error| < center_threshold then (error, "centered")
  else if error > 0 then (error, "right")
  else (error, "left")

/-- `VisionSystem.estimate_distance`. -/
def estimate_distance (obj : DetectedObject) (reference_area : ℚ := 20000) : String :=
  let area_ratio := obj.area / reference_area
  if area_ratio > 3/2 then "too_close"
  else if area_ratio < 1/2 then "too_far"
  else "good"

/-- Classification of a bare area ratio by the thresholds of
`estimate_distance`; used to state that the estimate depends only on the
ratio `area / reference_area`. -/
def distanceOfRatio (ratio : ℚ) : String :=
  if ratio > 3/2 then "too_close"
  else if ratio < 1/2 then "too_far"
  else "good"

end RobotV2

namespace RobotV2

/-- C3: for every detected object and frame center, `calculate_alignment_error`
returns `error = center_x - frame_center_x`, with direction `centered` iff
`|error| < 30`, `right` iff `|error| ≥ 30` and `error > 0`, and `left` iff
`|error| ≥ 30` and `error < 0`. -/
theorem alignment_error_spec (obj : DetectedObject) (fcx : ℤ) :
    (calculate_alignment_error obj fcx).1 = obj.center_x - fcx ∧
    ((calculate_alignment_error obj fcx).2 = "centered" ↔
      |obj.center_x - fcx| < 30) ∧
    ((calculate_alignment_error obj fcx).2 = "right" ↔
      30 ≤ |obj.center_x - fcx| ∧ 0 < obj.center_x - fcx) ∧
    ((calculate_alignment_error obj fcx).2 = "left" ↔
      30 ≤ |obj.center_x - fcx| ∧ obj.center_x - fcx < 0) := by
  by_cases h1 : |obj.center_x - fcx| < 30
  · have hc : calculate_alignment_error obj fcx = (obj.center_x - fcx, "centered") := by
      unfold calculate_alignment_error center_threshold
      dsimp only
      rw [if_pos h1]
    rw [hc]
    refine ⟨rfl, ⟨fun _ => h1, fun _ => rfl⟩, ?_, ?_⟩
    · exact ⟨fun h => absurd h (show ("centered":String) ≠ "right" by decide),
        fun h2 => absurd h1 (not_lt.mpr h2.1)⟩
    · exact ⟨fun h => absurd h (show ("centered":String) ≠ "left" by decide),
        fun h2 => absurd h1 (not_lt.mpr h2.1)⟩
  · have h30 : 30 ≤ |obj.center_x - fcx| := not_lt.mp h1
    by_cases h2 : 0 < obj.center_x - fcx
    · have hc : calculate_alignment_error obj fcx = (obj.center_x - fcx, "right") := by
        unfold calculate_alignment_error center_threshold
        dsimp only
        rw [if_neg h1, if_pos h2]
      rw [hc]
      refine ⟨rfl, ?_, ⟨fun _ => ⟨h30, h2⟩, fun _ => rfl⟩, ?_⟩
      · exact ⟨fun h => absurd h (show ("right":String) ≠ "centered" by decide),
          fun h3 => absurd h3 h1⟩
      · exact ⟨fun h => absurd h (show ("right":String) ≠ "left" by decide),
          fun h3 => absurd h2 (by omega)⟩
    · have hle : obj.center_x - fcx ≤ 0 := not_lt.mp h2
      have hne : obj.center_x - fcx ≠ 0 := by
        intro h0
        rw [h0] at h30
        simp at h30
      have hneg : obj.center_x - fcx < 0 := lt_of_le_of_ne hle hne
      have hc : calculate_alignment_error obj fcx = (obj.center_x - fcx, "left") := by
        unfold calculate_alignment_error center_threshold
        dsimp only
        rw [if_neg h1, if_neg h2]
      rw [hc]
      refine ⟨rfl, ?_, ?_, ⟨fun _ => ⟨h30, hneg⟩, fun _ => rfl⟩⟩
      · exact ⟨fun h => absurd h (show ("left":String) ≠ "centered" by decide),
          fun h3 => absurd h3 h1⟩
      · exact ⟨fun h => absurd h (show ("left":String) ≠ "right" by decide),
          fun h3 => absurd h3.2 h2⟩

/-- C4: for every object and positive reference area, `estimate_distance` is
a function of the ratio `area / reference_area` alone, with strict threshold
comparisons: `too_close` iff ratio `> 3/2`, `too_far` iff ratio `< 1/2`,
`good` iff `1/2 ≤ ratio ≤ 3/2`. -/
theorem estimate_distance_spec (obj : DetectedObject) (reference_area : ℚ)
    (_hpos : 0 < reference_area) :
    estimate_distance obj reference_area =
      distanceOfRatio (obj.area / reference_area) ∧
    (estimate_distance obj reference_area = "too_close" ↔
      obj.area / reference_area > 3/2) ∧
    (estimate_distance obj reference_area = "too_far" ↔
      obj.area / reference_area < 1/2) ∧
    (estimate_distance obj reference_area = "good" ↔
      1/2 ≤ obj.area / reference_area ∧ obj.area / reference_area ≤ 3/2) := by
  by_cases h1 : obj.area / reference_area > 3/2
  · have hc : estimate_distance obj reference_area = "too_close" := by
      unfold estimate_distance
      dsimp only
      rw [if_pos h1]
    have hd : distanceOfRatio (obj.area / reference_area) = "too_close" := by
      unfold distanceOfRatio
      rw [if_pos h1]
    rw [hc, hd]
    refine ⟨rfl, ⟨fun _ => h1, fun _ => rfl⟩, ?_, ?_⟩
    · exact ⟨fun hs => absurd hs (by decide), fun h2 => absurd h1 (by linarith)⟩
    · exact ⟨fun hs => absurd hs (by decide), fun h2 => absurd h1 (by linarith [h2.2])⟩
  · by_cases h2 : obj.area / reference_area < 1/2
    · have hc : estimate_distance obj reference_area = "too_far" := by
        unfold estimate_distance
        dsimp only
        rw [if_neg h1, if_pos h2]
      have hd : distanceOfRatio (obj.area / reference_area) = "too_far" := by
        unfold distanceOfRatio
        rw [if_neg h1, if_pos h2]
      rw [hc, hd]
      refine ⟨rfl, ?_, ⟨fun _ => h2, fun _ => rfl⟩, ?_⟩
      · exact ⟨fun hs => absurd hs (by decide), fun h3 => absurd h3 h1⟩
      · exact ⟨fun hs => absurd hs (by decide), fun h3 => absurd h2 (by linarith [h3.1])⟩
    · have hc : estimate_distance obj reference_area = "good" := by
        unfold estimate_distance
        dsimp only
        rw [if_neg h1, if_neg h2]
      have hd : distanceOfRatio (obj.area / reference_area) = "good" := by
        unfold distanceOfRatio
        rw [if_neg h1, if_neg h2]
      rw [hc, hd]
      refine ⟨rfl, ?_, ?_, ⟨fun _ => ⟨not_lt.mp h2, not_lt.mp h1⟩, fun _ => rfl⟩⟩
      · exact ⟨fun hs => absurd hs (by decide), fun h3 => absurd h3 h1⟩
      · exact ⟨fun hs => absurd hs (by decide), fun h3 => absurd h3 h2⟩

/-- A concrete detected object used to instantiate `estimate_distance_spec`:
a sheet-like detection of area `1000`. -/
def c4obj : DetectedObject :=
  { color := "red", center_x := 320, center_y := 240, area := 1000,
    bbox := (295, 215, 50, 20), aspect_ratio := 5/2 }

/-- Witness for `estimate_distance_spec` at the concrete object `c4obj` and
reference area `20000`. -/
theorem estimate_distance_spec_witness :
    estimate_distance c4obj 20000 = distanceOfRatio (c4obj.area / 20000) ∧
    (estimate_distance c4obj 20000 = "too_far" ↔ c4obj.area / 20000 < 1/2) :=
  ⟨(estimate_distance_spec c4obj 20000 (by norm_num)).1,
   (estimate_distance_spec c4obj 20000 (by norm_num)).2.2.1⟩

/-- A concrete detected object of area exactly `10000`, so that the ratio
against the reference area `20000` is exactly `1/2`. -/
def c5obj : DetectedObject :=
  { color := "blue", center_x := 320, center_y := 240, area := 10000,
    bbox := (270, 190, 100, 100), aspect_ratio := 1 }

/-- C5 counterexample: at area `10000` and reference area `20000` (ratio
exactly `1/2`) `estimate_distance` returns `"good"`, not `"too_far"` as the
claim states — the `< 0.5` comparison is strict, so the boundary ratio falls
into the `good` band. -/
theorem estimate_distance_half_counterexample :
    c5obj.area = 10000 ∧ estimate_distance c5obj 20000 = "good" ∧
    estimate_distance c5obj 20000 ≠ "too_far" := by
  have h : estimate_distance c5obj 20000 = "good" := by
    norm_num [estimate_distance, c5obj]
  exact ⟨rfl, h, by rw [h]; decide⟩

/-- C5 amended: for a detected object with area `10000` and reference area
`20000` (ratio exactly `0.5`), `estimate_distance` returns `good` — the
exclusive boundary keeps the exact ratio `0.5` out of `too_far`. -/
theorem estimate_distance_half_is_good (obj : DetectedObject)
    (h : obj.area = 10000) : estimate_distance obj 20000 = "good" := by
  norm_num [estimate_distance, h]

/-- Witness for `estimate_distance_half_is_good` at the concrete object
`c5obj`. -/
theorem estimate_distance_half_is_good_witness :
    estimate_distance c5obj 20000 = "good" :=
  estimate_distance_half_is_good c5obj (by norm_num [c5obj])

end RobotV2

namespace RobotV2

/-- Key fact behind C6: whenever the per-contour body accepts a contour, the
produced object's stored area and aspect ratio lie inside the class-spec
bounds, because they are exactly the filtered quantities. -/
theorem processContour_some_bounds {color : String} {min_area max_area : ℚ}
    {rng : ℚ × ℚ} {c : Contour} {obj : DetectedObject}
    (h : processContour color min_area max_area rng c = some obj) :
    min_area ≤ obj.area ∧ obj.area ≤ max_area ∧
    rng.1 ≤ obj.aspect_ratio ∧ obj.aspect_ratio ≤ rng.2 := by
  unfold processContour at h
  by_cases h1 : c.area < min_area ∨ c.area > max_area
  · rw [if_pos h1] at h
    exact absurd h (by simp)
  · rw [if_neg h1] at h
    dsimp only at h
    by_cases h2 : aspectRatioOf c < rng.1 ∨ aspectRatioOf c > rng.2
    · rw [if_pos h2] at h
      exact absurd h (by simp)
    · rw [if_neg h2] at h
      rw [Option.some.injEq] at h
      subst h
      push_neg at h1 h2
      exact ⟨h1.1, h1.2, h2.1, h2.2⟩

/-- C6: `extract_objects_from_mask` never returns an object whose area lies
outside `[min_area, max_area]` or whose width/height aspect ratio lies
outside `[min_ratio, max_ratio]`, whatever the contours of the input mask. -/
theorem extract_objects_area_aspect_bounds (contours : List Contour)
    (color : String) (min_area max_area : ℚ) (rng : ℚ × ℚ)
    (obj : DetectedObject)
    (hmem : obj ∈ extract_objects_from_mask contours color min_area max_area rng) :
    min_area ≤ obj.area ∧ obj.area ≤ max_area ∧
    rng.1 ≤ obj.aspect_ratio ∧ obj.aspect_ratio ≤ rng.2 := by
  unfold extract_objects_from_mask sortByAreaDesc at hmem
  rw [(List.perm_insertionSort _ _).mem_iff] at hmem
  rcases List.mem_filterMap.mp hmem with ⟨c, -, hc⟩
  exact processContour_some_bounds hc

/-- A concrete non-degenerate contour: area `1000`, bounding box
`(475, 215, 50, 50)`, moments giving the centroid `(500, 240)`. -/
def wContour : Contour :=
  { area := 1000, x := 475, y := 215, w := 50, h := 50,
    m00 := 1000, m10 := 500000, m01 := 240000 }

/-- The detection `wContour` yields under the block class spec. -/
def wObj : DetectedObject :=
  { color := "red", center_x := 500, center_y := 240, area := 1000,
    bbox := (475, 215, 50, 50), aspect_ratio := 1 }

/-- Evaluation of the per-contour body on `wContour`. -/
theorem processContour_wContour :
    processContour "red" block_min_area block_max_area block_aspect_ratio_range
      wContour = some wObj := by
  unfold processContour aspectRatioOf pyInt wContour wObj
  unfold block_min_area block_max_area block_aspect_ratio_range
  norm_num

/-- Evaluation of `extract_objects_from_mask` on the singleton mask contour
`wContour` under the block class spec. -/
theorem extract_wContour_eval :
    extract_objects_from_mask [wContour] "red" block_min_area block_max_area
      block_aspect_ratio_range = [wObj] := by
  unfold extract_objects_from_mask sortByAreaDesc
  rw [List.filterMap_cons, processContour_wContour]
  simp [List.insertionSort]

/-- Witness for `extract_objects_area_aspect_bounds` at the concrete
detection produced from `wContour`. -/
theorem extract_objects_area_aspect_bounds_witness :
    block_min_area ≤ wObj.area ∧ wObj.area ≤ block_max_area ∧
    block_aspect_ratio_range.1 ≤ wObj.aspect_ratio ∧
    wObj.aspect_ratio ≤ block_aspect_ratio_range.2 :=
  extract_objects_area_aspect_bounds [wContour] "red" block_min_area
    block_max_area block_aspect_ratio_range wObj
    (by rw [extract_wContour_eval]; exact List.mem_singleton.mpr rfl)

/-- The stable descending sort used by every detection entry point yields a
list pairwise ordered by non-increasing area. -/
theorem sortByAreaDesc_pairwise (l : List DetectedObject) :
    (sortByAreaDesc l).Pairwise (fun a b => b.area ≤ a.area) := by
  haveI : IsTotal DetectedObject (fun a b => b.area ≤ a.area) :=
    ⟨fun a b => le_total b.area a.area⟩
  haveI : IsTrans DetectedObject (fun a b => b.area ≤ a.area) :=
    ⟨fun _ _ _ h1 h2 => le_trans h2 h1⟩
  exact List.sorted_insertionSort _ l

/-- C7: every sequence returned by `extract_objects_from_mask`,
`detect_small_blocks`, or `detect_sheets` is ordered by non-increasing area
(largest first), including after concatenating results across colors. -/
theorem detections_sorted_by_area (contours : List Contour) (color : String)
    (min_area max_area : ℚ) (rng : ℚ × ℚ) (frame : Frame)
    (bcolors scolors : List String) :
    List.Pairwise (fun a b => b.area ≤ a.area)
      (extract_objects_from_mask contours color min_area max_area rng) ∧
    List.Pairwise (fun a b => b.area ≤ a.area)
      (detect_small_blocks frame bcolors) ∧
    List.Pairwise (fun a b => b.area ≤ a.area)
      (detect_sheets frame scolors) :=
  ⟨sortByAreaDesc_pairwise _, sortByAreaDesc_pairwise _, sortByAreaDesc_pairwise _⟩

/-- C10: extraction is total on a contour whose bounding-box height is `0`:
the aspect ratio is taken to be `0` instead of raising a division-by-zero
error, and the contour is rejected whenever the class spec's minimum aspect
ratio is positive. -/
theorem extract_degenerate_height (c : Contour) (color : String)
    (min_area max_area : ℚ) (rng : ℚ × ℚ) (hh : c.h = 0) :
    aspectRatioOf c = 0 ∧
    (0 < rng.1 →
      extract_objects_from_mask [c] color min_area max_area rng = []) := by
  have ha : aspectRatioOf c = 0 := by
    unfold aspectRatioOf
    rw [hh]
    norm_num
  refine ⟨ha, fun hpos => ?_⟩
  have hrej : processContour color min_area max_area rng c = none := by
    unfold processContour
    by_cases h1 : c.area < min_area ∨ c.area > max_area
    · rw [if_pos h1]
    · rw [if_neg h1]
      dsimp only
      rw [if_pos (Or.inl (by rw [ha]; exact hpos))]
  unfold extract_objects_from_mask sortByAreaDesc
  rw [List.filterMap_cons, hrej]
  simp [List.insertionSort]

/-- A degenerate contour whose bounding box has height `0` (and hence zero
moments). -/
def degContour : Contour :=
  { area := 1000, x := 100, y := 100, w := 50, h := 0,
    m00 := 0, m10 := 0, m01 := 0 }

/-- Witness for `extract_degenerate_height` at the concrete degenerate
contour `degContour` under the block class spec (minimum ratio `1/2 > 0`). -/
theorem extract_degenerate_height_witness :
    aspectRatioOf degContour = 0 ∧
    extract_objects_from_mask [degContour] "red" block_min_area block_max_area
      block_aspect_ratio_range = [] := by
  have h := extract_degenerate_height degContour "red" block_min_area
    block_max_area block_aspect_ratio_range rfl
  exact ⟨h.1, h.2 (by norm_num [block_aspect_ratio_range])⟩

end RobotV2

namespace RobotV2

/-- The `RobotState` enum of `main.py`. -/
inductive RobotState where
  | FIND_BLOCK
  | GRAB_BLOCK
  | ALIGN_TO_TARGET_SHEET
  | DROP_BLOCK
  | IDLE
  deriving DecidableEq, Repr

/-- The mutable fields of `BlockPickingRobot` that the state machine reads
and writes: current/previous state, held-block color, completed-block
counter, state-entry timestamp and the consecutive-search counter. -/
structure Robot where
  current_state : RobotState
  previous_state : Option RobotState
  current_block_color : Option String
  blocks_processed : ℕ
  state_start_time : ℚ
  search_attempts : ℕ
  deriving DecidableEq, Repr

/-- `self.state_timeout = 30.0`. -/
def state_timeout : ℚ := 30

/-- `self.max_search_attempts = 20`. -/
def max_search_attempts : ℕ := 20

/-- `self.alignment_tolerance = 40`. -/
def alignment_tolerance : ℤ := 40

/-- The robot as `BlockPickingRobot.__init__` leaves it, started at wall
clock `t0`: state `FIND_BLOCK`, no previous state, no held color, zero
blocks processed, zero search attempts. -/
def initRobot (t0 : ℚ) : Robot :=
  { current_state := .FIND_BLOCK, previous_state := none,
    current_block_color := none, blocks_processed := 0,
    state_start_time := t0, search_attempts := 0 }

/-- `BlockPickingRobot.change_state`: records the previous state, switches
to the new one and restamps the state-entry time.  It touches no other
field — in particular it does not reset `search_attempts`. -/
def change_state (r : Robot) (new_state : RobotState) (now : ℚ) : Robot :=
  { r with previous_state := some r.current_state,
           current_state := new_state,
           state_start_time := now }

/-- `BlockPickingRobot.check_timeout`: elapsed time strictly above the 30 s
budget. -/
def check_timeout (r : Robot) (now : ℚ) : Bool :=
  decide (now - r.state_start_time > state_timeout)

/-- `BlockPickingRobot.state_find_block`, with the detection call's result
passed in as `blocks` (the value `detect_small_blocks(frame)` returned this
tick).  Empty result: bump the search counter, resetting it past the bound;
non-empty: reset the counter, record the first block's color, then report
done exactly when the alignment error is within tolerance. -/
def state_find_block (r : Robot) (blocks : List DetectedObject) : Robot × Bool :=
  match blocks with
  | [] =>
    if r.search_attempts + 1 > max_search_attempts then
      ({ r with search_attempts := 0 }, false)
    else
      ({ r with search_attempts := r.search_attempts + 1 }, false)
  | block :: _ =>
    let r1 := { r with search_attempts := 0,
                       current_block_color := some block.color }
    let ed := calculate_alignment_error block frame_center_x
    if |ed.1| > alignment_tolerance then (r1, false) else (r1, true)

/-- `BlockPickingRobot.state_grab_block`: runs the blocking grab sequence,
increments `blocks_processed`, always reports done. -/
def state_grab_block (r : Robot) : Robot × Bool :=
  ({ r with blocks_processed := r.blocks_processed + 1 }, true)

/-- `BlockPickingRobot.state_align_to_target_sheet`, with the detection
call's result passed in as `sheets` (the value
`detect_sheets(frame, colors=[current_block_color])` returned this tick).
Empty result: same retry policy as `state_find_block`; non-empty: reset the
counter, report done exactly when aligned within tolerance and the distance
estimate is neither `too_far` nor `too_close`. -/
def state_align_to_target_sheet (r : Robot) (sheets : List DetectedObject) :
    Robot × Bool :=
  match sheets with
  | [] =>
    if r.search_attempts + 1 > max_search_attempts then
      ({ r with search_attempts := 0 }, false)
    else
      ({ r with search_attempts := r.search_attempts + 1 }, false)
  | sheet :: _ =>
    let r1 := { r with search_attempts := 0 }
    let ed := calculate_alignment_error sheet frame_center_x
    if |ed.1| > alignment_tolerance then (r1, false)
    else if estimate_distance sheet 20000 = "too_far" then (r1, false)
    else if estimate_distance sheet 20000 = "too_close" then (r1, false)
    else (r1, true)

/-- `BlockPickingRobot.state_drop_block`: runs the blocking release
sequence, clears the held-block color, always reports done.  It does not
touch `blocks_processed`. -/
def state_drop_block (r : Robot) : Robot × Bool :=
  ({ r with current_block_color := none }, true)

/-- `BlockPickingRobot.state_idle`: always reports not-done. -/
def state_idle (r : Robot) : Robot × Bool :=
  (r, false)

/-- Per-tick sensor input to `run_state_machine`: the two detection lists
the vision system produces on this tick's frame, and the wall-clock value
`time.time()` reads during the tick. -/
structure TickInput where
  blocks : List DetectedObject
  sheets : List DetectedObject
  now : ℚ
  deriving Repr

/-- `BlockPickingRobot.run_state_machine`: outside `IDLE` a timed-out state
is forced back to `FIND_BLOCK` before any per-state logic runs; otherwise
the current state's handler runs and, when it reports done, the
corresponding transition is applied. -/
def run_state_machine (r : Robot) (inp : TickInput) : Robot :=
  if r.current_state ≠ RobotState.IDLE ∧ check_timeout r inp.now = true then
    change_state r .FIND_BLOCK inp.now
  else
    match r.current_state with
    | .FIND_BLOCK =>
      let sr := state_find_block r inp.blocks
      if sr.2 then change_state sr.1 .GRAB_BLOCK inp.now else sr.1
    | .GRAB_BLOCK =>
      let sr := state_grab_block r
      if sr.2 then change_state sr.1 .ALIGN_TO_TARGET_SHEET inp.now else sr.1
    | .ALIGN_TO_TARGET_SHEET =>
      let sr := state_align_to_target_sheet r inp.sheets
      if sr.2 then change_state sr.1 .DROP_BLOCK inp.now else sr.1
    | .DROP_BLOCK =>
      let sr := state_drop_block r
      if sr.2 then change_state sr.1 .IDLE inp.now else sr.1
    | .IDLE => (state_idle r).1

/-- One observable interaction of the main loop `BlockPickingRobot.run`:
a state-machine tick, or one of the keyboard transitions — `c` (continue,
honored only in `IDLE`) and `r` (reset: clear the held color, force
`FIND_BLOCK`). -/
inductive Event where
  | tick (inp : TickInput)
  | keyContinue (now : ℚ)
  | keyReset (now : ℚ)

/-- Effect of one `Event` on the robot, following the main loop of
`main.py` (run_state_machine, and the `c` / `r` key handlers). -/
def step (r : Robot) : Event → Robot
  | .tick inp => run_state_machine r inp
  | .keyContinue now =>
    if r.current_state = RobotState.IDLE then change_state r .FIND_BLOCK now
    else r
  | .keyReset now =>
    change_state { r with current_block_color := none } .FIND_BLOCK now

/-- The robot states reachable from startup under any sequence of ticks and
key presses. -/
inductive Reachable : Robot → Prop where
  | init (t0 : ℚ) : Reachable (initRobot t0)
  | step {r : Robot} (e : Event) : Reachable r → Reachable (step r e)

end RobotV2

namespace RobotV2

/-- The FIND_BLOCK handler never changes the current state field itself. -/
theorem find_fst_state (r : Robot) (blocks : List DetectedObject) :
    ((state_find_block r blocks).1).current_state = r.current_state := by
  unfold state_find_block
  cases blocks
  · dsimp only
    split <;> rfl
  · dsimp only
    split <;> rfl

/-- The FIND_BLOCK handler never changes the completed-block counter. -/
theorem find_fst_blocks_processed (r : Robot) (blocks : List DetectedObject) :
    ((state_find_block r blocks).1).blocks_processed = r.blocks_processed := by
  unfold state_find_block
  cases blocks
  · dsimp only
    split <;> rfl
  · dsimp only
    split <;> rfl

/-- On an empty detection the FIND_BLOCK handler keeps the held color. -/
theorem find_fst_color_nil (r : Robot) :
    ((state_find_block r []).1).current_block_color = r.current_block_color := by
  unfold state_find_block
  dsimp only
  split <;> rfl

/-- On a non-empty detection the FIND_BLOCK handler records the first
block's color — whether or not it reports done. -/
theorem find_fst_color_cons (r : Robot) (b : DetectedObject)
    (tl : List DetectedObject) :
    ((state_find_block r (b :: tl)).1).current_block_color = some b.color := by
  unfold state_find_block
  dsimp only
  split <;> rfl

/-- On a non-empty detection the FIND_BLOCK handler resets the search
counter to zero. -/
theorem find_fst_attempts_cons (r : Robot) (b : DetectedObject)
    (tl : List DetectedObject) :
    ((state_find_block r (b :: tl)).1).search_attempts = 0 := by
  unfold state_find_block
  dsimp only
  split <;> rfl

/-- On an empty detection the FIND_BLOCK handler bumps the search counter,
wrapping it to zero once it passes the bound. -/
theorem find_fst_attempts_nil (r : Robot) :
    ((state_find_block r []).1).search_attempts =
      (if r.search_attempts + 1 > max_search_attempts then 0
       else r.search_attempts + 1) := by
  unfold state_find_block
  dsimp only
  split
  · rfl
  · rfl

/-- The FIND_BLOCK handler never reports done on an empty detection. -/
theorem find_snd_nil (r : Robot) : (state_find_block r []).2 = false := by
  unfold state_find_block
  dsimp only
  split <;> rfl

/-- The ALIGN handler never changes the current state field itself. -/
theorem align_fst_state (r : Robot) (sheets : List DetectedObject) :
    ((state_align_to_target_sheet r sheets).1).current_state = r.current_state := by
  unfold state_align_to_target_sheet
  cases sheets
  · dsimp only
    split <;> rfl
  · dsimp only
    split
    · rfl
    · split
      · rfl
      · split <;> rfl

/-- The ALIGN handler never changes the completed-block counter. -/
theorem align_fst_blocks_processed (r : Robot) (sheets : List DetectedObject) :
    ((state_align_to_target_sheet r sheets).1).blocks_processed =
      r.blocks_processed := by
  unfold state_align_to_target_sheet
  cases sheets
  · dsimp only
    split <;> rfl
  · dsimp only
    split
    · rfl
    · split
      · rfl
      · split <;> rfl

/-- The ALIGN handler never changes the held color. -/
theorem align_fst_color (r : Robot) (sheets : List DetectedObject) :
    ((state_align_to_target_sheet r sheets).1).current_block_color =
      r.current_block_color := by
  unfold state_align_to_target_sheet
  cases sheets
  · dsimp only
    split <;> rfl
  · dsimp only
    split
    · rfl
    · split
      · rfl
      · split <;> rfl

/-- On a non-empty detection the ALIGN handler resets the search counter. -/
theorem align_fst_attempts_cons (r : Robot) (s : DetectedObject)
    (tl : List DetectedObject) :
    ((state_align_to_target_sheet r (s :: tl)).1).search_attempts = 0 := by
  unfold state_align_to_target_sheet
  dsimp only
  split
  · rfl
  · split
    · rfl
    · split <;> rfl

/-- On an empty detection the ALIGN handler bumps the search counter,
wrapping it to zero once it passes the bound. -/
theorem align_fst_attempts_nil (r : Robot) :
    ((state_align_to_target_sheet r []).1).search_attempts =
      (if r.search_attempts + 1 > max_search_attempts then 0
       else r.search_attempts + 1) := by
  unfold state_align_to_target_sheet
  dsimp only
  split
  · rfl
  · rfl

/-- The ALIGN handler never reports done on an empty detection. -/
theorem align_snd_nil (r : Robot) :
    (state_align_to_target_sheet r []).2 = false := by
  unfold state_align_to_target_sheet
  dsimp only
  split <;> rfl

/-- C9: for every state except `IDLE`, once the elapsed time since state
entry strictly exceeds the 30-second budget at the start of a tick, the tick
transitions to `FIND_BLOCK` without running the current state's per-state
handler (the whole tick is exactly a `change_state`); the `IDLE` state is
never subject to the timeout — an `IDLE` tick leaves the robot unchanged no
matter how much time elapsed. -/
theorem timeout_policy (r : Robot) (inp : TickInput) :
    (check_timeout r inp.now = true ↔ inp.now - r.state_start_time > 30) ∧
    (r.current_state ≠ RobotState.IDLE → check_timeout r inp.now = true →
      run_state_machine r inp = change_state r .FIND_BLOCK inp.now) ∧
    (r.current_state = RobotState.IDLE → run_state_machine r inp = r) := by
  refine ⟨?_, ?_, ?_⟩
  · unfold check_timeout state_timeout
    exact decide_eq_true_iff
  · intro h1 h2
    unfold run_state_machine
    rw [if_pos ⟨h1, h2⟩]
  · intro h1
    unfold run_state_machine
    rw [if_neg (by rintro ⟨hne, -⟩; exact hne h1), h1]
    rfl

/-- A concrete robot sitting in `GRAB_BLOCK` since wall-clock `0`. -/
def c9robot : Robot :=
  { current_state := .GRAB_BLOCK, previous_state := some .FIND_BLOCK,
    current_block_color := some "red", blocks_processed := 0,
    state_start_time := 0, search_attempts := 0 }

/-- A tick arriving at wall-clock `30.1` seconds. -/
def c9input : TickInput := { blocks := [], sheets := [], now := 301/10 }

/-- Witness for `timeout_policy`: at `30.1` elapsed seconds the
`GRAB_BLOCK` robot is forced straight back to `FIND_BLOCK`. -/
theorem timeout_policy_witness :
    run_state_machine c9robot c9input =
      change_state c9robot .FIND_BLOCK c9input.now :=
  (timeout_policy c9robot c9input).2.1 (by decide)
    ((timeout_policy c9robot c9input).1.mpr (by norm_num [c9robot, c9input]))

/-- A concrete robot sitting in `DROP_BLOCK` holding a red block, with one
block already counted. -/
def c8robot : Robot :=
  { current_state := .DROP_BLOCK,
    previous_state := some .ALIGN_TO_TARGET_SHEET,
    current_block_color := some "red", blocks_processed := 1,
    state_start_time := 0, search_attempts := 0 }

/-- C8 counterexample: the drop handler reports done and clears the color
but leaves the completed-block counter unchanged, while the grab handler —
a different state's step — is the one that increments it. -/
theorem drop_block_no_increment_counterexample :
    (state_drop_block c8robot).2 = true ∧
    ((state_drop_block c8robot).1).current_block_color = none ∧
    ((state_drop_block c8robot).1).blocks_processed = c8robot.blocks_processed ∧
    ((state_grab_block c8robot).1).blocks_processed =
      c8robot.blocks_processed + 1 :=
  ⟨rfl, rfl, rfl, rfl⟩

/-- C8 amended: `state_drop_block` always reports done and clears the
held-block color in that same step, but leaves the completed-block counter
unchanged; the counter is incremented by exactly one in `state_grab_block`,
and no other state's handler changes it. -/
theorem drop_and_grab_counter_policy (r : Robot)
    (blocks sheets : List DetectedObject) :
    (state_drop_block r).2 = true ∧
    ((state_drop_block r).1).current_block_color = none ∧
    ((state_drop_block r).1).blocks_processed = r.blocks_processed ∧
    ((state_grab_block r).1).blocks_processed = r.blocks_processed + 1 ∧
    ((state_find_block r blocks).1).blocks_processed = r.blocks_processed ∧
    ((state_align_to_target_sheet r sheets).1).blocks_processed =
      r.blocks_processed ∧
    ((state_idle r).1).blocks_processed = r.blocks_processed :=
  ⟨rfl, rfl, rfl, rfl, find_fst_blocks_processed r blocks,
   align_fst_blocks_processed r sheets, rfl⟩

/-- C2 amended: the search-attempt counter is reset to `0` by every
successful (non-empty) detection in `FIND_BLOCK` and
`ALIGN_TO_TARGET_SHEET`, and wraps to `0` when an empty detection pushes it
past the bound of `20`; `change_state` itself — hence every transition,
including the forced timeout and reset transitions — leaves the counter
untouched. -/
theorem search_attempts_reset_policy (r : Robot) (b s : DetectedObject)
    (tlb tls : List DetectedObject) (st : RobotState) (now : ℚ) :
    ((state_find_block r (b :: tlb)).1).search_attempts = 0 ∧
    ((state_align_to_target_sheet r (s :: tls)).1).search_attempts = 0 ∧
    ((state_find_block r []).1).search_attempts =
      (if r.search_attempts + 1 > max_search_attempts then 0
       else r.search_attempts + 1) ∧
    ((state_align_to_target_sheet r []).1).search_attempts =
      (if r.search_attempts + 1 > max_search_attempts then 0
       else r.search_attempts + 1) ∧
    (change_state r st now).search_attempts = r.search_attempts :=
  ⟨find_fst_attempts_cons r b tlb, align_fst_attempts_cons r s tls,
   find_fst_attempts_nil r, align_fst_attempts_nil r, rfl⟩

end RobotV2

namespace RobotV2

/-- A non-timed-out tick in `FIND_BLOCK` runs the FIND_BLOCK handler and
transitions to `GRAB_BLOCK` exactly when it reports done. -/
theorem run_find_tick (r : Robot) (inp : TickInput)
    (hst : r.current_state = RobotState.FIND_BLOCK)
    (hto : check_timeout r inp.now = false) :
    run_state_machine r inp =
      (if (state_find_block r inp.blocks).2 = true
       then change_state (state_find_block r inp.blocks).1 .GRAB_BLOCK inp.now
       else (state_find_block r inp.blocks).1) := by
  unfold run_state_machine
  rw [if_neg (by rw [hto]; rintro ⟨-, h⟩; exact Bool.false_ne_true h), hst]

/-- A non-timed-out tick in `GRAB_BLOCK` always transitions to
`ALIGN_TO_TARGET_SHEET` after the grab handler. -/
theorem run_grab_tick (r : Robot) (inp : TickInput)
    (hst : r.current_state = RobotState.GRAB_BLOCK)
    (hto : check_timeout r inp.now = false) :
    run_state_machine r inp =
      change_state (state_grab_block r).1 .ALIGN_TO_TARGET_SHEET inp.now := by
  unfold run_state_machine
  rw [if_neg (by rw [hto]; rintro ⟨-, h⟩; exact Bool.false_ne_true h), hst]
  rfl

/-- A non-timed-out tick in `ALIGN_TO_TARGET_SHEET` runs the ALIGN handler
and transitions to `DROP_BLOCK` exactly when it reports done. -/
theorem run_align_tick (r : Robot) (inp : TickInput)
    (hst : r.current_state = RobotState.ALIGN_TO_TARGET_SHEET)
    (hto : check_timeout r inp.now = false) :
    run_state_machine r inp =
      (if (state_align_to_target_sheet r inp.sheets).2 = true
       then change_state (state_align_to_target_sheet r inp.sheets).1
              .DROP_BLOCK inp.now
       else (state_align_to_target_sheet r inp.sheets).1) := by
  unfold run_state_machine
  rw [if_neg (by rw [hto]; rintro ⟨-, h⟩; exact Bool.false_ne_true h), hst]

/-- A non-timed-out tick in `DROP_BLOCK` always transitions to `IDLE` after
the drop handler. -/
theorem run_drop_tick (r : Robot) (inp : TickInput)
    (hst : r.current_state = RobotState.DROP_BLOCK)
    (hto : check_timeout r inp.now = false) :
    run_state_machine r inp = change_state (state_drop_block r).1 .IDLE inp.now := by
  unfold run_state_machine
  rw [if_neg (by rw [hto]; rintro ⟨-, h⟩; exact Bool.false_ne_true h), hst]
  rfl

/-- A tick in `IDLE` leaves the robot unchanged (the timeout check is
skipped and the idle handler never reports done). -/
theorem run_idle_tick (r : Robot) (inp : TickInput)
    (hst : r.current_state = RobotState.IDLE) :
    run_state_machine r inp = r := by
  unfold run_state_machine
  rw [if_neg (by rintro ⟨hne, -⟩; exact hne hst), hst]
  rfl

/-- A timed-out tick outside `IDLE` is exactly a forced `change_state` to
`FIND_BLOCK`. -/
theorem run_timeout_tick (r : Robot) (inp : TickInput)
    (hst : r.current_state ≠ RobotState.IDLE)
    (hto : check_timeout r inp.now = true) :
    run_state_machine r inp = change_state r .FIND_BLOCK inp.now := by
  unfold run_state_machine
  rw [if_pos ⟨hst, hto⟩]

/-- The held-block-color invariant exactly as the spec states it:
`current_block_color` is `None` precisely in `FIND_BLOCK` and `IDLE`. -/
def colorStateInvariantClaim (r : Robot) : Prop :=
  r.current_block_color = none ↔
    (r.current_state = RobotState.FIND_BLOCK ∨
     r.current_state = RobotState.IDLE)

/-- The held-block-color invariant the code actually maintains: the color is
non-`None` throughout `GRAB_BLOCK`, `ALIGN_TO_TARGET_SHEET` and
`DROP_BLOCK`, and `None` in `IDLE`; in `FIND_BLOCK` it may be either. -/
def colorStateInvariant (r : Robot) : Prop :=
  ((r.current_state = RobotState.GRAB_BLOCK ∨
    r.current_state = RobotState.ALIGN_TO_TARGET_SHEET ∨
    r.current_state = RobotState.DROP_BLOCK) →
      r.current_block_color ≠ none) ∧
  (r.current_state = RobotState.IDLE → r.current_block_color = none)

/-- Any robot whose current state is `FIND_BLOCK` satisfies
`colorStateInvariant`: the invariant constrains only the other states. -/
theorem colorStateInvariant_of_find (s : Robot)
    (hs : s.current_state = RobotState.FIND_BLOCK) :
    colorStateInvariant s := by
  constructor
  · rintro (h | h | h) <;> rw [hs] at h <;> exact absurd h (by decide)
  · intro h
    rw [hs] at h
    exact absurd h (by decide)

/-- One `step` preserves `colorStateInvariant`. -/
theorem colorStateInvariant_step (r : Robot) (e : Event)
    (ih : colorStateInvariant r) : colorStateInvariant (step r e) := by
  cases e with
  | keyContinue now =>
    show colorStateInvariant
      (if r.current_state = RobotState.IDLE
       then change_state r .FIND_BLOCK now else r)
    split
    · exact colorStateInvariant_of_find _ rfl
    · exact ih
  | keyReset now =>
    show colorStateInvariant
      (change_state { r with current_block_color := none } .FIND_BLOCK now)
    exact colorStateInvariant_of_find _ rfl
  | tick inp =>
    show colorStateInvariant (run_state_machine r inp)
    by_cases hst : r.current_state = RobotState.IDLE
    · rw [run_idle_tick r inp hst]
      exact ih
    · by_cases hto : check_timeout r inp.now = true
      · rw [run_timeout_tick r inp hst hto]
        exact colorStateInvariant_of_find _ rfl
      · have hto' : check_timeout r inp.now = false := by
          cases hcb : check_timeout r inp.now
          · rfl
          · exact absurd hcb hto
        cases hs : r.current_state with
        | FIND_BLOCK =>
          rw [run_find_tick r inp hs hto']
          by_cases hdone : (state_find_block r inp.blocks).2 = true
          · rw [if_pos hdone]
            constructor
            · rintro -
              show ((state_find_block r inp.blocks).1).current_block_color ≠ none
              cases hb : inp.blocks with
              | nil =>
                rw [hb, find_snd_nil] at hdone
                exact absurd hdone (by decide)
              | cons b tl =>
                rw [find_fst_color_cons]
                simp
            · intro h
              exact absurd
                (show RobotState.GRAB_BLOCK = RobotState.IDLE from h) (by decide)
          · rw [if_neg hdone]
            exact colorStateInvariant_of_find _ ((find_fst_state r inp.blocks).trans hs)
        | GRAB_BLOCK =>
          rw [run_grab_tick r inp hs hto']
          constructor
          · rintro -
            show r.current_block_color ≠ none
            exact ih.1 (Or.inl hs)
          · intro h
            exact absurd
              (show RobotState.ALIGN_TO_TARGET_SHEET = RobotState.IDLE from h)
              (by decide)
        | ALIGN_TO_TARGET_SHEET =>
          rw [run_align_tick r inp hs hto']
          by_cases hdone : (state_align_to_target_sheet r inp.sheets).2 = true
          · rw [if_pos hdone]
            constructor
            · rintro -
              show ((state_align_to_target_sheet r inp.sheets).1).current_block_color ≠ none
              rw [align_fst_color]
              exact ih.1 (Or.inr (Or.inl hs))
            · intro h
              exact absurd
                (show RobotState.DROP_BLOCK = RobotState.IDLE from h) (by decide)
          · rw [if_neg hdone]
            constructor
            · rintro -
              rw [align_fst_color]
              exact ih.1 (Or.inr (Or.inl hs))
            · intro h
              rw [align_fst_state, hs] at h
              exact absurd h (by decide)
        | DROP_BLOCK =>
          rw [run_drop_tick r inp hs hto']
          constructor
          · rintro (h | h | h)
            · exact absurd
                (show RobotState.IDLE = RobotState.GRAB_BLOCK from h) (by decide)
            · exact absurd
                (show RobotState.IDLE = RobotState.ALIGN_TO_TARGET_SHEET from h)
                (by decide)
            · exact absurd
                (show RobotState.IDLE = RobotState.DROP_BLOCK from h) (by decide)
          · rintro -
            rfl
        | IDLE =>
          exact absurd hs hst

/-- C1 amended: in every reachable controller state, `current_block_color`
is non-`None` while the state is `GRAB_BLOCK`, `ALIGN_TO_TARGET_SHEET` or
`DROP_BLOCK`, and `None` while the state is `IDLE`; in `FIND_BLOCK` it can
be either, because the handler records the first detected block's color as
soon as a block is detected — even on ticks where it reports not-done. -/
theorem color_state_invariant_reachable :
    (∀ r, Reachable r → colorStateInvariant r) ∧
    (∀ (r : Robot) (b : DetectedObject) (tl : List DetectedObject),
      ((state_find_block r (b :: tl)).1).current_block_color = some b.color) := by
  constructor
  · intro r h
    induction h with
    | init t0 =>
      refine ⟨?_, ?_⟩
      · rintro (h | h | h) <;> simp [initRobot] at h
      · intro h
        simp [initRobot] at h
    | step e hr ih => exact colorStateInvariant_step _ e ih
  · intro r b tl
    exact find_fst_color_cons r b tl

/-- Witness for `color_state_invariant_reachable`: the freshly initialized
robot satisfies the invariant, and a FIND_BLOCK tick on the concrete
detection `wObj` records its color. -/
theorem color_state_invariant_reachable_witness :
    colorStateInvariant (initRobot 0) ∧
    ((state_find_block (initRobot 0) [wObj]).1).current_block_color = some "red" :=
  ⟨color_state_invariant_reachable.1 (initRobot 0) (Reachable.init 0),
   color_state_invariant_reachable.2 (initRobot 0) wObj []⟩

end RobotV2

namespace RobotV2

/-- A frame whose red mask yields exactly the contour `wContour` (centroid
at `x = 500`) and whose other masks are empty. -/
def c1frame : Frame :=
  { contoursOf := fun color => if color = "red" then [wContour] else [] }

/-- The full detection pipeline on `c1frame` returns the single block
`wObj`. -/
theorem detect_c1frame : detect_small_blocks c1frame = [wObj] := by
  have hred : c1frame.contoursOf "red" = [wContour] := rfl
  have hyellow : c1frame.contoursOf "yellow" = [] := rfl
  have hblue : c1frame.contoursOf "blue" = [] := rfl
  unfold detect_small_blocks
  rw [List.map_cons, List.map_cons, List.map_cons, List.map_nil]
  rw [hred, hyellow, hblue, extract_wContour_eval]
  rfl

/-- The tick input of the C1 scenario: the pipeline detections of
`c1frame`, no sheets, wall clock `0`. -/
def c1input : TickInput :=
  { blocks := detect_small_blocks c1frame, sheets := [], now := 0 }

/-- The robot after one tick from startup on `c1input`. -/
def c1robot : Robot := step (initRobot 0) (.tick c1input)

/-- Evaluation of the C1 scenario tick: the block at `x = 500` is 180 px off
center, beyond the 40 px tolerance, so FIND_BLOCK reports not-done — yet its
color has already been recorded. -/
theorem c1robot_eval :
    c1robot = { current_state := .FIND_BLOCK, previous_state := none,
                current_block_color := some "red", blocks_processed := 0,
                state_start_time := 0, search_attempts := 0 } := by
  show run_state_machine (initRobot 0) c1input = _
  unfold c1input
  rw [detect_c1frame]
  norm_num [run_state_machine, check_timeout, state_timeout, initRobot,
            state_find_block, calculate_alignment_error, center_threshold,
            frame_center_x, alignment_tolerance, wObj, change_state]

/-- C1 counterexample: after a single reachable tick the robot is still in
`FIND_BLOCK` yet `current_block_color` is already `some "red"` — the block
was detected but misaligned, and `state_find_block` records the color before
the alignment check, refuting the claimed invariant and the claim that the
color is recorded only at the moment FIND_BLOCK reports done. -/
theorem find_block_color_claim_counterexample :
    Reachable c1robot ∧
    c1robot.current_state = RobotState.FIND_BLOCK ∧
    c1robot.current_block_color = some "red" ∧
    ¬ colorStateInvariantClaim c1robot := by
  refine ⟨Reachable.step _ (Reachable.init 0), ?_, ?_, ?_⟩
  · rw [c1robot_eval]
  · rw [c1robot_eval]
  · rw [c1robot_eval]
    unfold colorStateInvariantClaim
    decide

end RobotV2

namespace RobotV2

/-- A contour whose centroid lies exactly at the frame center `x = 320`. -/
def ctrContour : Contour :=
  { area := 1000, x := 295, y := 215, w := 50, h := 50,
    m00 := 1000, m10 := 320000, m01 := 240000 }

/-- The detection `ctrContour` yields under the block class spec. -/
def ctrObj : DetectedObject :=
  { color := "red", center_x := 320, center_y := 240, area := 1000,
    bbox := (295, 215, 50, 50), aspect_ratio := 1 }

/-- Evaluation of the per-contour body on `ctrContour`. -/
theorem processContour_ctrContour :
    processContour "red" block_min_area block_max_area block_aspect_ratio_range
      ctrContour = some ctrObj := by
  unfold processContour aspectRatioOf pyInt ctrContour ctrObj
  unfold block_min_area block_max_area block_aspect_ratio_range
  norm_num

/-- Evaluation of `extract_objects_from_mask` on the singleton contour list
`[ctrContour]` under the block class spec. -/
theorem extract_ctrContour_eval :
    extract_objects_from_mask [ctrContour] "red" block_min_area block_max_area
      block_aspect_ratio_range = [ctrObj] := by
  unfold extract_objects_from_mask sortByAreaDesc
  rw [List.filterMap_cons, processContour_ctrContour]
  simp [List.insertionSort]

/-- A frame whose red mask yields exactly `ctrContour` and whose other masks
are empty. -/
def c2frame : Frame :=
  { contoursOf := fun color => if color = "red" then [ctrContour] else [] }

/-- The full detection pipeline on `c2frame` returns the single centred
block `ctrObj`. -/
theorem detect_c2frame : detect_small_blocks c2frame = [ctrObj] := by
  have hred : c2frame.contoursOf "red" = [ctrContour] := rfl
  have hyellow : c2frame.contoursOf "yellow" = [] := rfl
  have hblue : c2frame.contoursOf "blue" = [] := rfl
  unfold detect_small_blocks
  rw [List.map_cons, List.map_cons, List.map_cons, List.map_nil]
  rw [hred, hyellow, hblue, extract_ctrContour_eval]
  rfl

/-- Tick 1 of the C2 scenario: a centred red block is visible at clock 0. -/
def c2ev1 : Event :=
  .tick { blocks := detect_small_blocks c2frame, sheets := [], now := 0 }

/-- Tick 2: nothing new at clock 1 (the grab step needs no vision). -/
def c2ev2 : Event := .tick { blocks := [], sheets := [], now := 1 }

/-- Tick 3: no sheet is visible at clock 2. -/
def c2ev3 : Event := .tick { blocks := [], sheets := [], now := 2 }

/-- Tick 4: still no sheet, and the clock has reached 33 — more than 30
seconds after the ALIGN state was entered at clock 1. -/
def c2ev4 : Event := .tick { blocks := [], sheets := [], now := 33 }

/-- Robot after tick 1: transitioned to `GRAB_BLOCK`. -/
def c2r1 : Robot := step (initRobot 0) c2ev1

/-- Robot after tick 2: transitioned to `ALIGN_TO_TARGET_SHEET`. -/
def c2r2 : Robot := step c2r1 c2ev2

/-- Robot after tick 3: still aligning, one failed search attempt. -/
def c2r3 : Robot := step c2r2 c2ev3

/-- Robot after tick 4: forced by timeout back to `FIND_BLOCK`. -/
def c2r4 : Robot := step c2r3 c2ev4

/-- Evaluation of tick 1: the centred block is within tolerance, so
FIND_BLOCK reports done and the robot enters `GRAB_BLOCK`. -/
theorem c2r1_eval :
    c2r1 = { current_state := .GRAB_BLOCK, previous_state := some .FIND_BLOCK,
             current_block_color := some "red", blocks_processed := 0,
             state_start_time := 0, search_attempts := 0 } := by
  show run_state_machine (initRobot 0)
    { blocks := detect_small_blocks c2frame, sheets := [], now := 0 } = _
  rw [detect_c2frame]
  norm_num [run_state_machine, check_timeout, state_timeout, initRobot,
            state_find_block, calculate_alignment_error, center_threshold,
            frame_center_x, alignment_tolerance, ctrObj, change_state]

/-- Evaluation of tick 2: the grab always succeeds, incrementing the
completed-block counter, and the robot enters `ALIGN_TO_TARGET_SHEET` at
clock 1. -/
theorem c2r2_eval :
    c2r2 = { current_state := .ALIGN_TO_TARGET_SHEET,
             previous_state := some .GRAB_BLOCK,
             current_block_color := some "red", blocks_processed := 1,
             state_start_time := 1, search_attempts := 0 } := by
  show run_state_machine c2r1 { blocks := [], sheets := [], now := 1 } = _
  rw [c2r1_eval]
  norm_num [run_state_machine, check_timeout, state_timeout,
            state_grab_block, change_state]

/-- Evaluation of tick 3: no sheet is visible, so the ALIGN handler bumps
the search counter to 1 and the state is unchanged. -/
theorem c2r3_eval :
    c2r3 = { current_state := .ALIGN_TO_TARGET_SHEET,
             previous_state := some .GRAB_BLOCK,
             current_block_color := some "red", blocks_processed := 1,
             state_start_time := 1, search_attempts := 1 } := by
  show run_state_machine c2r2 { blocks := [], sheets := [], now := 2 } = _
  rw [c2r2_eval]
  norm_num [run_state_machine, check_timeout, state_timeout,
            state_align_to_target_sheet, max_search_attempts, change_state]

/-- Evaluation of tick 4: 32 seconds have elapsed in ALIGN, so the tick is a
forced `change_state` to `FIND_BLOCK` — which carries the search counter 1
along unchanged. -/
theorem c2r4_eval :
    c2r4 = { current_state := .FIND_BLOCK,
             previous_state := some .ALIGN_TO_TARGET_SHEET,
             current_block_color := some "red", blocks_processed := 1,
             state_start_time := 33, search_attempts := 1 } := by
  show run_state_machine c2r3 { blocks := [], sheets := [], now := 33 } = _
  rw [c2r3_eval]
  norm_num [run_state_machine, check_timeout, state_timeout, change_state]
  intro h
  exact absurd h (by decide)

/-- C2 counterexample: a reachable robot in `ALIGN_TO_TARGET_SHEET` with
search counter 1 undergoes a forced timeout transition to `FIND_BLOCK`, and
the counter is still 1 afterwards — the transition did not reset it to 0
(and `change_state` never does). -/
theorem search_attempts_claim_counterexample :
    Reachable c2r3 ∧
    c2r3.current_state = RobotState.ALIGN_TO_TARGET_SHEET ∧
    c2r3.search_attempts = 1 ∧
    c2r4 = step c2r3 c2ev4 ∧
    c2r4.current_state = RobotState.FIND_BLOCK ∧
    c2r4.search_attempts = 1 := by
  refine ⟨Reachable.step c2ev3 (Reachable.step c2ev2
    (Reachable.step c2ev1 (Reachable.init 0))), ?_, ?_, rfl, ?_, ?_⟩
  · rw [c2r3_eval]
  · rw [c2r3_eval]
  · rw [c2r4_eval]
  · rw [c2r4_eval]

end RobotV2
